import Mathlib

/-!
Shallow embedding of the servicepro-backend core (quote/job/invoice
lifecycle and financial-total computation engine) and proofs checking the
natural-language specification against it.

Monetary values are modelled by exact rationals (the Python layer computes
with plain arithmetic and the SQLite backend stores the values as-is,
without scale quantisation).  Timestamps are modelled as natural numbers;
calendar dates are modelled as day numbers with explicit Gregorian
conversions mirroring the `datetime`/`timedelta` arithmetic of the source.
-/

namespace SP

/-- Monetary/amount values: exact rationals. -/
abbrev Money := ℚ

/-- An API error is the HTTP status code paired with the error message,
exactly as produced by the Flask routes. -/
abbrev ApiError := Nat × String

/-- `src/models/user.py` `Customer` (the fields the routes touch). -/
structure Customer where
  id : Nat
  user_id : Nat
  name : String
  email : Option String := none
  phone : Option String := none
  address : Option String := none
  city : Option String := none
  state : Option String := none
  zip_code : Option String := none
  notes : Option String := none
  created_at : Nat := 0
  deriving Repr, DecidableEq

/-- `src/models/user.py` `Quote`. -/
structure Quote where
  id : Nat
  user_id : Nat
  customer_id : Nat
  quote_number : String
  title : String
  description : Option String := none
  subtotal : Money := 0
  tax_rate : ℚ := 0
  tax_amount : Money := 0
  total : Money := 0
  status : String := "draft"
  valid_until : Option Nat := none
  notes : Option String := none
  created_at : Nat := 0
  deriving Repr, DecidableEq

/-- `src/models/user.py` `QuoteItem`. -/
structure QuoteItem where
  quote_id : Nat
  description : String
  quantity : ℚ
  unit_price : Money
  total_price : Money
  deriving Repr, DecidableEq

/-- `src/models/user.py` `Job`. -/
structure Job where
  id : Nat
  user_id : Nat
  customer_id : Nat
  quote_id : Option Nat := none
  job_number : String
  title : String
  description : Option String := none
  scheduled_date : Option Nat := none
  scheduled_time : Option String := none
  duration_hours : Option ℚ := none
  status : String := "scheduled"
  total_amount : Money := 0
  notes : Option String := none
  created_at : Nat := 0
  deriving Repr, DecidableEq

/-- `src/models/user.py` `Invoice`. -/
structure Invoice where
  id : Nat
  user_id : Nat
  customer_id : Nat
  job_id : Option Nat := none
  invoice_number : String
  subtotal : Money := 0
  tax_rate : ℚ := 0
  tax_amount : Money := 0
  total : Money := 0
  status : String := "draft"
  due_date : Option Nat := none
  paid_date : Option Nat := none
  notes : Option String := none
  created_at : Nat := 0
  deriving Repr, DecidableEq

/-- The persistent store: one table per model. -/
structure DB where
  customers : List Customer := []
  quotes : List Quote := []
  quote_items : List QuoteItem := []
  jobs : List Job := []
  invoices : List Invoice := []
  deriving Repr, DecidableEq

/-- `Model.query.filter_by(id=..., user_id=...).first()`: the first row
matching both the primary key and the owner. -/
def findCustomer (db : DB) (uid cid : Nat) : Option Customer :=
  db.customers.find? (fun c => c.id = cid && c.user_id = uid)

def findQuote (db : DB) (uid qid : Nat) : Option Quote :=
  db.quotes.find? (fun q => q.id = qid && q.user_id = uid)

def findJob (db : DB) (uid jid : Nat) : Option Job :=
  db.jobs.find? (fun j => j.id = jid && j.user_id = uid)

def findInvoice (db : DB) (uid iid : Nat) : Option Invoice :=
  db.invoices.find? (fun i => i.id = iid && i.user_id = uid)

/-- Commit an updated row back to its table (update-in-place by id). -/
def putQuote (db : DB) (q : Quote) : DB :=
  { db with quotes := db.quotes.map (fun x => if x.id = q.id then q else x) }

def putJob (db : DB) (j : Job) : DB :=
  { db with jobs := db.jobs.map (fun x => if x.id = j.id then j else x) }

def putInvoice (db : DB) (i : Invoice) : DB :=
  { db with invoices := db.invoices.map (fun x => if x.id = i.id then i else x) }

def putCustomer (db : DB) (c : Customer) : DB :=
  { db with customers := db.customers.map (fun x => if x.id = c.id then c else x) }

/-- ASCII whitespace, as stripped by Python's `str.strip()`. -/
def isSpaceChar (c : Char) : Bool :=
  c = ' ' || c = '\t' || c = '\n' || c = '\r' || c = '\x0b' || c = '\x0c'

/-- Python's `str.strip()`: drop leading and trailing whitespace. -/
def pyStrip (s : String) : String :=
  String.mk (((s.data.dropWhile isSpaceChar).reverse.dropWhile isSpaceChar).reverse)

/-- `data['x'].strip() or None` on a text field. -/
def stripOrNone (s : String) : Option String :=
  if pyStrip s = "" then none else some (pyStrip s)

/-- One entry of a request's `items` list: `(description, quantity, unit_price)`. -/
structure ItemData where
  description : String := ""
  quantity : ℚ := 1
  unit_price : Money := 0
  deriving Repr, DecidableEq

/-- The item loop shared by `create_quote` and `update_quote`
(`src/routes/quotes.py`): trim each description, compute
`total_price = quantity * unit_price`, keep only entries whose trimmed
description is non-empty, and accumulate the subtotal over the kept
entries. -/
def processItems (qid : Nat) : List ItemData → List QuoteItem × ℚ
  | [] => ([], 0)
  | it :: rest =>
    let desc := pyStrip it.description
    let tp := it.quantity * it.unit_price
    let (restItems, restSub) := processItems qid rest
    if desc = "" then (restItems, restSub)
    else ({ quote_id := qid, description := desc, quantity := it.quantity,
            unit_price := it.unit_price, total_price := tp } :: restItems,
          tp + restSub)

/-- Request body for `POST /quotes/` (`create_quote`). -/
structure QuoteCreateData where
  customer_id : Option Nat := none
  title : String := ""
  description : String := ""
  tax_rate : ℚ := 0
  notes : String := ""
  items : List ItemData := []
  deriving Repr, DecidableEq

/-- `create_quote` (`src/routes/quotes.py`): validate the required fields,
check that the customer exists and belongs to the caller, persist the
quote with its surviving items, and compute
`subtotal`, `tax_amount = subtotal * (tax_rate / 100)`,
`total = subtotal + tax_amount`.  `newId`, `qnum` and `now` stand for the
generated primary key, the generated quote number and the current time. -/
def create_quote (db : DB) (uid : Nat) (d : QuoteCreateData)
    (newId : Nat) (qnum : String) (now : Nat) :
    Except ApiError (Quote × List QuoteItem) × DB :=
  match d.customer_id with
  | none => (.error (400, "Customer ID and title are required"), db)
  | some cid =>
    let title := pyStrip d.title
    if title = "" then (.error (400, "Customer ID and title are required"), db)
    else
      match findCustomer db uid cid with
      | none => (.error (404, "Customer not found"), db)
      | some _ =>
        let (newItems, subtotal) := processItems newId d.items
        let tax := subtotal * (d.tax_rate / 100)
        let q : Quote :=
          { id := newId, user_id := uid, customer_id := cid,
            quote_number := qnum, title := title,
            description := stripOrNone d.description,
            tax_rate := d.tax_rate,
            subtotal := subtotal, tax_amount := tax, total := subtotal + tax,
            valid_until := some (now + 30 * 86400),
            notes := stripOrNone d.notes, created_at := now }
        (.ok (q, newItems),
         { db with quotes := db.quotes ++ [q],
                   quote_items := db.quote_items ++ newItems })

/-- Request body for `PUT /quotes/<id>` (`update_quote`); `none` means the
key is absent from the JSON payload. -/
structure QuoteUpdateData where
  title : Option String := none
  description : Option String := none
  tax_rate : Option ℚ := none
  valid_until : Option Nat := none
  notes : Option String := none
  status : Option String := none
  items : Option (List ItemData) := none
  deriving Repr, DecidableEq

/-- The description/tax_rate/valid_until/notes/status assignments of
`update_quote` (`src/routes/quotes.py` lines 177-186), including the
unchecked assignment of `status` (lines 185-186). -/
def quoteFieldsRest (q : Quote) (d : QuoteUpdateData) : Quote :=
  let q := match d.description with
    | some s => { q with description := stripOrNone s }
    | none => q
  let q := match d.tax_rate with
    | some r => { q with tax_rate := r }
    | none => q
  let q := match d.valid_until with
    | some v => { q with valid_until := some v }
    | none => q
  let q := match d.notes with
    | some s => { q with notes := stripOrNone s }
    | none => q
  match d.status with
  | some s => { q with status := s }
  | none => q

/-- The field-by-field assignment block of `update_quote`
(`src/routes/quotes.py` lines 170-186): the early 400 return on an empty
trimmed title, then the remaining assignments. -/
def applyQuoteFields (q : Quote) (d : QuoteUpdateData) : Except ApiError Quote :=
  match d.title with
  | some t =>
    let t := pyStrip t
    if t = "" then .error (400, "Title is required")
    else .ok (quoteFieldsRest { q with title := t } d)
  | none => .ok (quoteFieldsRest q d)

/-- `update_quote` (`src/routes/quotes.py`): owner-scoped lookup, field
updates, and — only when the payload contains an `items` key — full
replacement of the item list and recomputation of the totals. -/
def update_quote (db : DB) (uid qid : Nat) (d : QuoteUpdateData) :
    Except ApiError Quote × DB :=
  match findQuote db uid qid with
  | none => (.error (404, "Quote not found"), db)
  | some q =>
    match applyQuoteFields q d with
    | .error e => (.error e, db)
    | .ok q1 =>
      match d.items with
      | none => (.ok q1, putQuote db q1)
      | some itemsData =>
        let (newItems, subtotal) := processItems qid itemsData
        let tax := subtotal * (q1.tax_rate / 100)
        let q2 := { q1 with subtotal := subtotal, tax_amount := tax,
                            total := subtotal + tax }
        let db1 := putQuote db q2
        (.ok q2,
         { db1 with quote_items :=
             db1.quote_items.filter (fun it => it.quote_id ≠ qid) ++ newItems })

/-- `delete_quote` (`src/routes/quotes.py`): blocked while any job
references the quote; otherwise the quote and its items are removed. -/
def delete_quote (db : DB) (uid qid : Nat) : Except ApiError Unit × DB :=
  match findQuote db uid qid with
  | none => (.error (404, "Quote not found"), db)
  | some q =>
    if db.jobs.any (fun j => j.quote_id = some q.id) then
      (.error (400, "Cannot delete quote with associated jobs"), db)
    else
      (.ok (),
       { db with
           quotes := db.quotes.filter (fun x => x.id ≠ q.id),
           quote_items := db.quote_items.filter (fun it => it.quote_id ≠ q.id) })

/-- `send_quote` (`src/routes/quotes.py` lines 265-291): only a draft
quote is moved to `sent`; any other status is left untouched and the call
still succeeds. -/
def send_quote (db : DB) (uid qid : Nat) : Except ApiError Quote × DB :=
  match findQuote db uid qid with
  | none => (.error (404, "Quote not found"), db)
  | some q =>
    if q.status = "draft" then
      let q1 := { q with status := "sent" }
      (.ok q1, putQuote db q1)
    else
      (.ok q, db)

/-- `accept_quote` (`src/routes/quotes.py`): unconditionally sets the
status to `accepted`. -/
def accept_quote (db : DB) (uid qid : Nat) : Except ApiError Quote × DB :=
  match findQuote db uid qid with
  | none => (.error (404, "Quote not found"), db)
  | some q =>
    let q1 := { q with status := "accepted" }
    (.ok q1, putQuote db q1)

/-- `reject_quote` (`src/routes/quotes.py`): unconditionally sets the
status to `rejected`. -/
def reject_quote (db : DB) (uid qid : Nat) : Except ApiError Quote × DB :=
  match findQuote db uid qid with
  | none => (.error (404, "Quote not found"), db)
  | some q =>
    let q1 := { q with status := "rejected" }
    (.ok q1, putQuote db q1)

/-- `get_quote` (`src/routes/quotes.py` lines 131-152): owner-scoped
read. -/
def get_quote (db : DB) (uid qid : Nat) : Except ApiError Quote × DB :=
  match findQuote db uid qid with
  | none => (.error (404, "Quote not found"), db)
  | some q => (.ok q, db)

/-- A date field of an update payload: absent from the JSON, present but
null/empty (falsy), present with a parseable value, or present with an
unparseable value. -/
inductive DateField where
  | absent
  | null
  | set (t : Nat)
  | invalid
  deriving Repr, DecidableEq

/-- Request body for `PUT /jobs/<id>` (`update_job`). -/
structure JobUpdateData where
  title : Option String := none
  description : Option String := none
  total_amount : Option ℚ := none
  notes : Option String := none
  status : Option String := none
  scheduled_date : DateField := .absent
  scheduled_time : Option (Option String) := none
  duration_hours : Option (Option ℚ) := none
  deriving Repr, DecidableEq

/-- The description/total_amount/notes assignments of `update_job`
(`src/routes/jobs.py` lines 189-194). -/
def jobBasicFields (j : Job) (d : JobUpdateData) : Job :=
  let j := match d.description with
    | some s => { j with description := stripOrNone s }
    | none => j
  let j := match d.total_amount with
    | some a => { j with total_amount := a }
    | none => j
  match d.notes with
  | some s => { j with notes := stripOrNone s }
  | none => j

/-- The unchecked `status` assignment of `update_job`
(`src/routes/jobs.py` lines 195-196). -/
def jobStatusField (j : Job) (d : JobUpdateData) : Job :=
  match d.status with
  | some s => { j with status := s }
  | none => j

/-- The scheduling-info block of `update_job`
(`src/routes/jobs.py` lines 198-214), with its 400 on an unparseable
scheduled date. -/
def jobSchedFields (j : Job) (d : JobUpdateData) : Except ApiError Job :=
  match d.scheduled_date with
  | .invalid => .error (400, "Invalid scheduled date format")
  | sd =>
    let j := match sd with
      | .set t => { j with scheduled_date := some t }
      | .null => { j with scheduled_date := none }
      | _ => j
    let j := match d.scheduled_time with
      | some st => { j with scheduled_time := st }
      | none => j
    let j := match d.duration_hours with
      | some dh => { j with duration_hours := dh }
      | none => j
    .ok j

/-- `update_job` (`src/routes/jobs.py` lines 166-226): owner-scoped
lookup, early 400 on an empty trimmed title, then the field blocks
above in source order. -/
def update_job (db : DB) (uid jid : Nat) (d : JobUpdateData) :
    Except ApiError Job × DB :=
  match findJob db uid jid with
  | none => (.error (404, "Job not found"), db)
  | some j =>
    match d.title with
    | some t =>
      let t := pyStrip t
      if t = "" then (.error (400, "Title is required"), db)
      else updateRest db { j with title := t } d
    | none => updateRest db j d
where
  updateRest (db : DB) (j : Job) (d : JobUpdateData) :
      Except ApiError Job × DB :=
    match jobSchedFields (jobStatusField (jobBasicFields j d) d) d with
    | .error e => (.error e, db)
    | .ok j2 => (.ok j2, putJob db j2)

/-- `delete_job` (`src/routes/jobs.py`): blocked while any invoice
references the job. -/
def delete_job (db : DB) (uid jid : Nat) : Except ApiError Unit × DB :=
  match findJob db uid jid with
  | none => (.error (404, "Job not found"), db)
  | some j =>
    if db.invoices.any (fun i => i.job_id = some j.id) then
      (.error (400, "Cannot delete job with associated invoices"), db)
    else
      (.ok (), { db with jobs := db.jobs.filter (fun x => x.id ≠ j.id) })

/-- `start_job` (`src/routes/jobs.py` lines 258-284): only a `scheduled`
job may be started; otherwise a 400 precondition error is returned and
nothing changes. -/
def start_job (db : DB) (uid jid : Nat) : Except ApiError Job × DB :=
  match findJob db uid jid with
  | none => (.error (404, "Job not found"), db)
  | some j =>
    if j.status ≠ "scheduled" then
      (.error (400, "Job must be scheduled to start"), db)
    else
      let j1 := { j with status := "in_progress" }
      (.ok j1, putJob db j1)

/-- `complete_job` (`src/routes/jobs.py`): allowed from `scheduled` or
`in_progress` only. -/
def complete_job (db : DB) (uid jid : Nat) : Except ApiError Job × DB :=
  match findJob db uid jid with
  | none => (.error (404, "Job not found"), db)
  | some j =>
    if j.status ≠ "scheduled" && j.status ≠ "in_progress" then
      (.error (400, "Job must be scheduled or in progress to complete"), db)
    else
      let j1 := { j with status := "completed" }
      (.ok j1, putJob db j1)

/-- `cancel_job` (`src/routes/jobs.py`): rejected for a completed job. -/
def cancel_job (db : DB) (uid jid : Nat) : Except ApiError Job × DB :=
  match findJob db uid jid with
  | none => (.error (404, "Job not found"), db)
  | some j =>
    if j.status = "completed" then
      (.error (400, "Cannot cancel completed job"), db)
    else
      let j1 := { j with status := "cancelled" }
      (.ok j1, putJob db j1)

/-- `get_job` (`src/routes/jobs.py`): owner-scoped read. -/
def get_job (db : DB) (uid jid : Nat) : Except ApiError Job × DB :=
  match findJob db uid jid with
  | none => (.error (404, "Job not found"), db)
  | some j => (.ok j, db)

/-- Request body for `PUT /invoices/<id>` (`update_invoice`). -/
structure InvoiceUpdateData where
  subtotal : Option ℚ := none
  tax_rate : Option ℚ := none
  due_date : DateField := .absent
  notes : Option String := none
  status : Option String := none
  deriving Repr, DecidableEq

/-- The subtotal/tax_rate assignments of `update_invoice`
(`src/routes/invoices.py` lines 156-160). -/
def invoiceFieldsA (i : Invoice) (d : InvoiceUpdateData) : Invoice :=
  let i := match d.subtotal with
    | some s => { i with subtotal := s }
    | none => i
  match d.tax_rate with
  | some r => { i with tax_rate := r }
  | none => i

/-- The due_date/notes/status assignments of `update_invoice`
(`src/routes/invoices.py` lines 161-173), including the unchecked
`status` assignment of lines 170-171, which stamps `paid_date` when the
new status is `paid` and `paid_date` is still unset. -/
def invoiceFieldsB (i : Invoice) (d : InvoiceUpdateData) (now : Nat) : Invoice :=
  let i := match d.due_date with
    | .set t => { i with due_date := some t }
    | _ => i
  let i := match d.notes with
    | some s => { i with notes := stripOrNone s }
    | none => i
  match d.status with
  | some s =>
    let i := { i with status := s }
    if s = "paid" && i.paid_date = none then
      { i with paid_date := some now }
    else i
  | none => i

/-- The unconditional recomputation of
`tax_amount = subtotal * (tax_rate / 100)` and
`total = subtotal + tax_amount` (`src/routes/invoices.py` lines 175-177). -/
def recomputeInvoiceTotals (i : Invoice) : Invoice :=
  let i := { i with tax_amount := i.subtotal * (i.tax_rate / 100) }
  { i with total := i.subtotal + i.tax_amount }

/-- The field-update block of `update_invoice`
(`src/routes/invoices.py` lines 156-177): the assignments above in source
order, aborting with a 400 on an unparseable due date, then the
unconditional totals recomputation. -/
def applyInvoiceFields (i : Invoice) (d : InvoiceUpdateData) (now : Nat) :
    Except ApiError Invoice :=
  let i1 := invoiceFieldsA i d
  match d.due_date with
  | .invalid => .error (400, "Invalid due date format")
  | _ => .ok (recomputeInvoiceTotals (invoiceFieldsB i1 d now))

/-- `update_invoice` (`src/routes/invoices.py` lines 140-189): owner-scoped
lookup followed by the field-update block above. -/
def update_invoice (db : DB) (uid iid : Nat) (d : InvoiceUpdateData)
    (now : Nat) : Except ApiError Invoice × DB :=
  match findInvoice db uid iid with
  | none => (.error (404, "Invoice not found"), db)
  | some i =>
    match applyInvoiceFields i d now with
    | .error e => (.error e, db)
    | .ok i1 => (.ok i1, putInvoice db i1)

/-- `delete_invoice` (`src/routes/invoices.py`): a paid invoice can never
be deleted. -/
def delete_invoice (db : DB) (uid iid : Nat) : Except ApiError Unit × DB :=
  match findInvoice db uid iid with
  | none => (.error (404, "Invoice not found"), db)
  | some i =>
    if i.status = "paid" then
      (.error (400, "Cannot delete paid invoice"), db)
    else
      (.ok (), { db with invoices := db.invoices.filter (fun x => x.id ≠ i.id) })

/-- `send_invoice` (`src/routes/invoices.py` lines 218-244): only a draft
invoice is moved to `sent`; any other status is left untouched and the
call still succeeds. -/
def send_invoice (db : DB) (uid iid : Nat) : Except ApiError Invoice × DB :=
  match findInvoice db uid iid with
  | none => (.error (404, "Invoice not found"), db)
  | some i =>
    if i.status = "draft" then
      let i1 := { i with status := "sent" }
      (.ok i1, putInvoice db i1)
    else
      (.ok i, db)

/-- `mark_invoice_paid` (`src/routes/invoices.py` lines 246-270): sets the
status to `paid` and assigns `paid_date = datetime.utcnow()`
unconditionally. -/
def mark_invoice_paid (db : DB) (uid iid : Nat) (now : Nat) :
    Except ApiError Invoice × DB :=
  match findInvoice db uid iid with
  | none => (.error (404, "Invoice not found"), db)
  | some i =>
    let i1 := { i with status := "paid", paid_date := some now }
    (.ok i1, putInvoice db i1)

/-- `get_invoice` (`src/routes/invoices.py`): owner-scoped read. -/
def get_invoice (db : DB) (uid iid : Nat) : Except ApiError Invoice × DB :=
  match findInvoice db uid iid with
  | none => (.error (404, "Invoice not found"), db)
  | some i => (.ok i, db)

/-- Request body for `PUT /customers/<id>` (`update_customer`). -/
structure CustomerUpdateData where
  name : Option String := none
  email : Option String := none
  phone : Option String := none
  address : Option String := none
  city : Option String := none
  state : Option String := none
  zip_code : Option String := none
  notes : Option String := none
  deriving Repr, DecidableEq

/-- `update_customer` (`src/routes/customers.py` lines 104-152). -/
def update_customer (db : DB) (uid cid : Nat) (d : CustomerUpdateData) :
    Except ApiError Customer × DB :=
  match findCustomer db uid cid with
  | none => (.error (404, "Customer not found"), db)
  | some c =>
    match d.name with
    | some n =>
      let n := pyStrip n
      if n = "" then (.error (400, "Customer name is required"), db)
      else updateRest db { c with name := n } d
    | none => updateRest db c d
where
  updateRest (db : DB) (c : Customer) (d : CustomerUpdateData) :
      Except ApiError Customer × DB :=
    let c := match d.email with
      | some s => { c with email := stripOrNone s } | none => c
    let c := match d.phone with
      | some s => { c with phone := stripOrNone s } | none => c
    let c := match d.address with
      | some s => { c with address := stripOrNone s } | none => c
    let c := match d.city with
      | some s => { c with city := stripOrNone s } | none => c
    let c := match d.state with
      | some s => { c with state := stripOrNone s } | none => c
    let c := match d.zip_code with
      | some s => { c with zip_code := stripOrNone s } | none => c
    let c := match d.notes with
      | some s => { c with notes := stripOrNone s } | none => c
    (.ok c, putCustomer db c)

/-- `delete_customer` (`src/routes/customers.py` lines 154-182): blocked
while any quote, job, or invoice references the customer. -/
def delete_customer (db : DB) (uid cid : Nat) : Except ApiError Unit × DB :=
  match findCustomer db uid cid with
  | none => (.error (404, "Customer not found"), db)
  | some c =>
    if db.quotes.any (fun q => q.customer_id = c.id)
        || db.jobs.any (fun j => j.customer_id = c.id)
        || db.invoices.any (fun i => i.customer_id = c.id) then
      (.error (400, "Cannot delete customer with associated quotes, jobs, or invoices"), db)
    else
      (.ok (), { db with customers := db.customers.filter (fun x => x.id ≠ c.id) })

/-- `get_customer` (`src/routes/customers.py`): owner-scoped read. -/
def get_customer (db : DB) (uid cid : Nat) : Except ApiError Customer × DB :=
  match findCustomer db uid cid with
  | none => (.error (404, "Customer not found"), db)
  | some c => (.ok c, db)

/-! ### Gregorian calendar arithmetic

`datetime`/`timedelta` day arithmetic, modelled as day numbers (days since
0000-03-01 in the proleptic Gregorian calendar, era-based conversion). -/

def isLeap (y : Nat) : Bool := (y % 4 == 0 && y % 100 != 0) || y % 400 == 0

def daysInMonth (y m : Nat) : Nat :=
  if m = 2 then (if isLeap y then 29 else 28)
  else if m = 4 ∨ m = 6 ∨ m = 9 ∨ m = 11 then 30 else 31

/-- Day number of the Gregorian date `y-m-d` (for `y ≥ 1`). -/
def civilToDays (y m d : Nat) : Nat :=
  let yAdj := if m ≤ 2 then y - 1 else y
  let era := yAdj / 400
  let yoe := yAdj % 400
  let mp := if m > 2 then m - 3 else m + 9
  let doy := (153 * mp + 2) / 5 + (d - 1)
  let doe := yoe * 365 + yoe / 4 - yoe / 100 + doy
  era * 146097 + doe

/-- Gregorian date `(year, month, day)` of a day number. -/
def daysToCivil (z : Nat) : Nat × Nat × Nat :=
  let era := z / 146097
  let doe := z % 146097
  let yoe := (doe - doe / 1460 + doe / 36524 - doe / 146096) / 365
  let y := yoe + era * 400
  let doy := doe - (365 * yoe + yoe / 4 - yoe / 100)
  let mp := (5 * doy + 2) / 153
  let d := doy - (153 * mp + 2) / 5 + 1
  let m := if mp < 10 then mp + 3 else mp - 9
  (if m ≤ 2 then y + 1 else y, m, d)

/-- `.replace(day=1)` on a day number. -/
def firstOfMonthDn (z : Nat) : Nat :=
  let c := daysToCivil z
  civilToDays c.1 c.2.1 1

/-- `month_start` of bucket `i` in `get_revenue_chart`
(`src/routes/dashboard.py` line 116):
`(now.replace(day=1) - timedelta(days=32*i)).replace(day=1)`, for a query
issued in month `(y, m)`. -/
def monthStartDn (y m i : Nat) : Nat := firstOfMonthDn (civilToDays y m 1 - 32 * i)

/-- `month_end` of bucket `i` (`src/routes/dashboard.py` line 117):
`(month_start + timedelta(days=32)).replace(day=1) - timedelta(days=1)`. -/
def monthEndDn (y m i : Nat) : Nat := firstOfMonthDn (monthStartDn y m i + 32) - 1

/-- The `(year, month)` label of bucket `i` (`month_start.strftime('%Y-%m')`). -/
def bucketMonth (y m i : Nat) : Nat × Nat :=
  let c := daysToCivil (monthStartDn y m i)
  (c.1, c.2.1)

def sumTotals (l : List Invoice) : ℚ := (l.map Invoice.total).sum

/-- `get_revenue_chart` with `period='month'`
(`src/routes/dashboard.py` lines 112-136): twelve buckets built with the
`32*i`-day stepping above, each summing the totals of the caller's paid
invoices whose `paid_date` lies in `[month_start, month_end]`, collected
newest-first and then reversed.  `paid_date` is modelled at day
granularity. -/
def get_revenue_chart_month (db : DB) (uid y m : Nat) :
    List ((Nat × Nat) × ℚ) :=
  ((List.range 12).map (fun i =>
    let lo := monthStartDn y m i
    let hi := monthEndDn y m i
    let revenue := sumTotals (db.invoices.filter (fun inv =>
      inv.user_id = uid && inv.status = "paid" &&
      (match inv.paid_date with
       | some pd => decide (lo ≤ pd) && decide (pd ≤ hi)
       | none => false)))
    (bucketMonth y m i, revenue))).reverse

/-- The calendar month `k` months before `(y, m)`. -/
def monthsBack : Nat → Nat → Nat → Nat × Nat
  | y, m, 0 => (y, m)
  | y, m, k+1 => if m = 1 then monthsBack (y-1) 12 k else monthsBack y (m-1) k

/-- The last 12 calendar months (the query month and its 11 predecessors),
oldest first — the bucket labels the spec promises. -/
def last12Months (y m : Nat) : List (Nat × Nat) :=
  ((List.range 12).map (monthsBack y m)).reverse

/-- The bucket label the code actually produces at position `i` (before
the reversal): the query month for `i = 0`, and the month `i + 1` months
back for `i ≥ 1` — the month immediately before the query month never
appears. -/
def codeBucketMonth (y m i : Nat) : Nat × Nat :=
  if i = 0 then (y, m) else monthsBack y m (i+1)

/-- Revenue of the caller's paid invoices whose `paid_date` lies between
the first and the last day of calendar month `ym`. -/
def calendarMonthRevenue (db : DB) (uid : Nat) (ym : Nat × Nat) : ℚ :=
  sumTotals (db.invoices.filter (fun inv =>
    inv.user_id = uid && inv.status = "paid" &&
    (match inv.paid_date with
     | some pd => decide (civilToDays ym.1 ym.2 1 ≤ pd) &&
                  decide (pd ≤ civilToDays ym.1 ym.2 (daysInMonth ym.1 ym.2))
     | none => false)))

/-- Per-date validation row: for each bucket position, the code's label is
`codeBucketMonth` and the code's `[month_start, month_end]` range is
exactly the first-through-last day of that label month. -/
def rowCheck (y m : Nat) : Bool :=
  (List.range 12).all fun i =>
    let e := codeBucketMonth y m i
    bucketMonth y m i == e &&
    monthStartDn y m i == civilToDays e.1 e.2 1 &&
    monthEndDn y m i == civilToDays e.1 e.2 (daysInMonth e.1 e.2)

/-! ### Recent-activity feed (`src/routes/dashboard.py` lines 305-371) -/

/-- The display record built for one feed entry. -/
structure Activity where
  type : String
  id : Nat
  title : String
  description : String
  date : Nat
  status : String
  amount : ℚ
  deriving Repr, DecidableEq

/-- Stable insertion into a list sorted descending by `key`. -/
def insertByDesc (key : α → Nat) (x : α) : List α → List α
  | [] => [x]
  | y :: ys => if key y < key x then x :: y :: ys else y :: insertByDesc key x ys

/-- Stable sort, descending by `key` — the observable behaviour of both
`order_by(created_at.desc())` and Python's stable
`sort(key=..., reverse=True)`. -/
def sortByDesc (key : α → Nat) (l : List α) : List α :=
  l.foldr (insertByDesc key) []

/-- `quote.customer.name` via the `customer_id` relationship. -/
def lookupCustomerName (db : DB) (cid : Nat) : String :=
  match db.customers.find? (fun c => c.id = cid) with
  | some c => c.name
  | none => ""

def quoteActivity (db : DB) (q : Quote) : Activity :=
  { type := "quote", id := q.id,
    title := "Quote " ++ q.quote_number ++ " created",
    description := "Quote for " ++ lookupCustomerName db q.customer_id ++ ": " ++ q.title,
    date := q.created_at, status := q.status, amount := q.total }

def jobActivity (db : DB) (j : Job) : Activity :=
  { type := "job", id := j.id,
    title := "Job " ++ j.job_number ++ " created",
    description := "Job for " ++ lookupCustomerName db j.customer_id ++ ": " ++ j.title,
    date := j.created_at, status := j.status, amount := j.total_amount }

def invoiceActivity (db : DB) (i : Invoice) : Activity :=
  { type := "invoice", id := i.id,
    title := "Invoice " ++ i.invoice_number ++ " created",
    description := "Invoice for " ++ lookupCustomerName db i.customer_id,
    date := i.created_at, status := i.status, amount := i.total }

/-- `get_recent_activity` (`src/routes/dashboard.py` lines 305-371): the
`limit//2` most recent quotes, jobs and invoices of the caller, merged,
sorted descending by creation timestamp, truncated to `limit`. -/
def get_recent_activity (db : DB) (uid limit : Nat) : List Activity :=
  let recentQuotes :=
    (sortByDesc Quote.created_at (db.quotes.filter (fun q => q.user_id = uid))).take (limit / 2)
  let recentJobs :=
    (sortByDesc Job.created_at (db.jobs.filter (fun j => j.user_id = uid))).take (limit / 2)
  let recentInvoices :=
    (sortByDesc Invoice.created_at (db.invoices.filter (fun i => i.user_id = uid))).take (limit / 2)
  let activities :=
    recentQuotes.map (quoteActivity db)
    ++ recentJobs.map (jobActivity db)
    ++ recentInvoices.map (invoiceActivity db)
  (sortByDesc Activity.date activities).take limit

/-- Modelled from the spec: the recent-activity feed as §4.5 words it —
"the N/3 most recent quotes, jobs, and invoices each, merged into one list
tagged by type ..., sorted descending by creation timestamp, truncated to
N". -/
def recent_activity_spec (db : DB) (uid limit : Nat) : List Activity :=
  let recentQuotes :=
    (sortByDesc Quote.created_at (db.quotes.filter (fun q => q.user_id = uid))).take (limit / 3)
  let recentJobs :=
    (sortByDesc Job.created_at (db.jobs.filter (fun j => j.user_id = uid))).take (limit / 3)
  let recentInvoices :=
    (sortByDesc Invoice.created_at (db.invoices.filter (fun i => i.user_id = uid))).take (limit / 3)
  let activities :=
    recentQuotes.map (quoteActivity db)
    ++ recentJobs.map (jobActivity db)
    ++ recentInvoices.map (invoiceActivity db)
  (sortByDesc Activity.date activities).take limit

/-! ### Spec-side state machines and rounding -/

/-- Modelled from the spec (§4.3): the Job lifecycle state machine —
`scheduled → in_progress`; `{scheduled, in_progress} → completed`; any
state except `completed` → `cancelled`. -/
def specJobAllowed (f t : String) : Bool :=
  (f == "scheduled" && t == "in_progress") ||
  ((f == "scheduled" || f == "in_progress") && t == "completed") ||
  (f != "completed" && t == "cancelled")

/-- Modelled from the spec (§4.3): the Quote lifecycle state machine —
`draft → sent` (idempotently re-invokable on `sent`), any state →
`accepted`, any state → `rejected`. -/
def specQuoteAllowed (f t : String) : Bool :=
  ((f == "draft" || f == "sent") && t == "sent") ||
  t == "accepted" || t == "rejected"

/-- Modelled from the spec (§4.3): the Invoice lifecycle state machine —
`draft → sent` (idempotently re-invokable on `sent`), any state → `paid`,
and the lazy `sent → overdue` reclassification. -/
def specInvoiceAllowed (f t : String) : Bool :=
  ((f == "draft" || f == "sent") && t == "sent") ||
  t == "paid" || (f == "sent" && t == "overdue")

/-- Round a rational to the nearest integer, ties to even — Python's
`round`. -/
def roundHalfEven (x : ℚ) : ℤ :=
  let f := ⌊x⌋
  let r := x - f
  if r < 1/2 then f
  else if 1/2 < r then f + 1
  else if f % 2 = 0 then f else f + 1

/-- Python's `round(x, 2)`. -/
def pyRound2 (x : ℚ) : ℚ := (roundHalfEven (100 * x) : ℚ) / 100

/-! ## Theorems -/

/-- C7: for every job owned by the caller, the "start" action succeeds and
sets the status to `in_progress` if and only if the job's current status
is `scheduled`; for any other current status it fails with a
precondition-failed error (400, distinct from the 404 not-found) and the
job — indeed the whole store — is unchanged. -/
theorem start_job_only_from_scheduled (db : DB) (uid jid : Nat) (j : Job)
    (hj : findJob db uid jid = some j) :
    (j.status = "scheduled" →
      start_job db uid jid =
        (.ok { j with status := "in_progress" },
         putJob db { j with status := "in_progress" })) ∧
    (j.status ≠ "scheduled" →
      start_job db uid jid = (.error (400, "Job must be scheduled to start"), db)) := by
  refine ⟨fun hs => ?_, fun hs => ?_⟩ <;> simp [start_job, hj, hs]

def jobStartC7 : Job :=
  { id := 1, user_id := 1, customer_id := 1, job_number := "JB-1",
    title := "T", status := "completed" }

def dbStartC7 : DB := { jobs := [jobStartC7] }

theorem start_job_only_from_scheduled_witness :
    findJob dbStartC7 1 1 = some jobStartC7 ∧
    (jobStartC7.status ≠ "scheduled" →
      start_job dbStartC7 1 1 =
        (.error (400, "Job must be scheduled to start"), dbStartC7)) :=
  ⟨by with_unfolding_all rfl,
   (start_job_only_from_scheduled dbStartC7 1 1 jobStartC7
     (by with_unfolding_all rfl)).2⟩

/-- C10: after every successful invoice update — whatever fields the
request carried — the stored totals satisfy
`tax_amount = subtotal * tax_rate / 100` and
`total = subtotal + tax_amount`. -/
theorem update_invoice_recomputes_totals (db : DB) (uid iid : Nat)
    (d : InvoiceUpdateData) (now : Nat) (inv : Invoice)
    (h : (update_invoice db uid iid d now).1 = .ok inv) :
    inv.tax_amount = inv.subtotal * (inv.tax_rate / 100) ∧
    inv.total = inv.subtotal + inv.tax_amount := by
  unfold update_invoice at h
  cases hf : findInvoice db uid iid with
  | none => simp [hf] at h
  | some i =>
    simp only [hf] at h
    have happ : ∀ i1, applyInvoiceFields i d now = .ok i1 →
        i1.tax_amount = i1.subtotal * (i1.tax_rate / 100) ∧
        i1.total = i1.subtotal + i1.tax_amount := by
      intro i1 h1
      unfold applyInvoiceFields at h1
      cases hdd : d.due_date <;> rw [hdd] at h1
      case invalid => simp at h1
      all_goals
        simp only [Except.ok.injEq] at h1
        subst h1
        exact ⟨rfl, rfl⟩
    cases ha : applyInvoiceFields i d now with
    | error e => rw [ha] at h; simp at h
    | ok i1 =>
      rw [ha] at h
      simp only [Except.ok.injEq] at h
      exact h ▸ happ i1 ha

def dbUpdC10 : DB :=
  { invoices := [{ id := 1, user_id := 1, customer_id := 1,
                   invoice_number := "INV-1", subtotal := 200,
                   tax_rate := 33/4, tax_amount := 33/2, total := 433/2 }] }

def invUpdC10 : Invoice :=
  { id := 1, user_id := 1, customer_id := 1, invoice_number := "INV-1",
    subtotal := 200, tax_rate := 33/4, tax_amount := 33/2,
    total := 433/2, notes := some "hi" }

theorem update_invoice_recomputes_totals_witness :
    ((update_invoice dbUpdC10 1 1 { notes := some "hi" } 0).1 = .ok invUpdC10) ∧
    (invUpdC10.tax_amount = invUpdC10.subtotal * (invUpdC10.tax_rate / 100) ∧
     invUpdC10.total = invUpdC10.subtotal + invUpdC10.tax_amount) :=
  ⟨by with_unfolding_all rfl,
   update_invoice_recomputes_totals dbUpdC10 1 1 { notes := some "hi" } 0
     invUpdC10 (by with_unfolding_all rfl)⟩

/-! ### Helper lemmas about the field-update blocks -/

theorem quoteFieldsRest_fields (q : Quote) (d : QuoteUpdateData) :
    (quoteFieldsRest q d).subtotal = q.subtotal ∧
    (quoteFieldsRest q d).tax_amount = q.tax_amount ∧
    (quoteFieldsRest q d).total = q.total ∧
    (quoteFieldsRest q d).status =
      (match d.status with | some s => s | none => q.status) ∧
    (quoteFieldsRest q d).tax_rate =
      (match d.tax_rate with | some r => r | none => q.tax_rate) := by
  unfold quoteFieldsRest
  cases d.description <;> cases d.tax_rate <;> cases d.valid_until <;>
    cases d.notes <;> cases d.status <;> exact ⟨rfl, rfl, rfl, rfl, rfl⟩

theorem applyQuoteFields_ok_fields (q : Quote) (d : QuoteUpdateData)
    (q1 : Quote) (h : applyQuoteFields q d = .ok q1) :
    q1.subtotal = q.subtotal ∧
    q1.tax_amount = q.tax_amount ∧
    q1.total = q.total ∧
    q1.status = (match d.status with | some s => s | none => q.status) ∧
    q1.tax_rate = (match d.tax_rate with | some r => r | none => q.tax_rate) := by
  unfold applyQuoteFields at h
  cases ht : d.title <;> rw [ht] at h
  case none =>
    simp only [Except.ok.injEq] at h
    subst h
    exact quoteFieldsRest_fields q d
  case some t =>
    by_cases hT : pyStrip t = ""
    · simp [hT] at h
    · simp only [hT, if_neg, ite_false, Except.ok.injEq, if_false] at h
      subst h
      exact quoteFieldsRest_fields { q with title := pyStrip t } d

theorem invoiceFieldsA_keeps (i : Invoice) (d : InvoiceUpdateData) :
    (invoiceFieldsA i d).status = i.status ∧
    (invoiceFieldsA i d).paid_date = i.paid_date := by
  unfold invoiceFieldsA
  cases d.subtotal <;> cases d.tax_rate <;> exact ⟨rfl, rfl⟩

theorem invoiceFieldsB_status_some (i : Invoice) (d : InvoiceUpdateData)
    (now : Nat) (s : String) (hs : d.status = some s) :
    (invoiceFieldsB i d now).status = s ∧
    (invoiceFieldsB i d now).paid_date =
      (if s = "paid" ∧ i.paid_date = none then some now else i.paid_date) := by
  unfold invoiceFieldsB
  rw [hs]
  cases d.due_date <;> cases d.notes <;>
    by_cases h1 : s = "paid" <;> by_cases h2 : i.paid_date = none <;>
      simp [h1, h2]

theorem recomputeInvoiceTotals_keeps (i : Invoice) :
    (recomputeInvoiceTotals i).status = i.status ∧
    (recomputeInvoiceTotals i).paid_date = i.paid_date ∧
    (recomputeInvoiceTotals i).subtotal = i.subtotal ∧
    (recomputeInvoiceTotals i).tax_rate = i.tax_rate :=
  ⟨rfl, rfl, rfl, rfl⟩

theorem jobStatusField_status (j : Job) (d : JobUpdateData) (s : String)
    (hs : d.status = some s) : (jobStatusField j d).status = s := by
  unfold jobStatusField
  rw [hs]

theorem jobSchedFields_status (j : Job) (d : JobUpdateData) (j2 : Job)
    (h : jobSchedFields j d = .ok j2) : j2.status = j.status := by
  unfold jobSchedFields at h
  cases hsd : d.scheduled_date <;> rw [hsd] at h
  case invalid => simp at h
  all_goals cases hst : d.scheduled_time <;> rw [hst] at h
  all_goals cases hdh : d.duration_hours <;> rw [hdh] at h
  all_goals simp only [Except.ok.injEq] at h
  all_goals subst h
  all_goals rfl

/-! ### C1 -/

def jobDoneC1 : Job :=
  { id := 1, user_id := 1, customer_id := 1, job_number := "JB-1",
    title := "T", status := "completed" }

def dbJobsC1 : DB := { jobs := [jobDoneC1] }

/-- C1 counterexample: the generic update endpoint moves a `completed` job
back to `scheduled` — a transition no lifecycle rule permits — without any
error.  Status mutations through generic updates are not gated by the
state machines. -/
theorem update_status_bypasses_state_machine :
    (update_job dbJobsC1 1 1 { status := some "scheduled" }).1.toOption.map Job.status
      = some "scheduled" ∧
    specJobAllowed "completed" "scheduled" = false := by
  constructor
  · with_unfolding_all rfl
  · with_unfolding_all rfl

/-- C1 amended: the generic update endpoints do not consult the state
machines at all — a request carrying a `status` field has that value
written verbatim for quotes, jobs and invoices alike; only the dedicated
action endpoints check transitions. -/
theorem generic_updates_set_status_verbatim (db : DB)
    (uid qid jid iid now : Nat) (dq : QuoteUpdateData) (dj : JobUpdateData)
    (di : InvoiceUpdateData) (s : String) :
    (dq.status = some s → ∀ q1, (update_quote db uid qid dq).1 = .ok q1 →
      q1.status = s) ∧
    (dj.status = some s → ∀ j1, (update_job db uid jid dj).1 = .ok j1 →
      j1.status = s) ∧
    (di.status = some s → ∀ i1, (update_invoice db uid iid di now).1 = .ok i1 →
      i1.status = s) := by
  refine ⟨?_, ?_, ?_⟩
  · intro hs q1 h
    cases hf : findQuote db uid qid with
    | none => rw [update_quote] at h; simp only [hf] at h; exact Except.noConfusion h
    | some q =>
      cases ha : applyQuoteFields q dq with
      | error e =>
        rw [update_quote] at h; simp only [hf, ha] at h
        exact Except.noConfusion h
      | ok qf =>
        have hfields := (applyQuoteFields_ok_fields q dq qf ha).2.2.2.1
        rw [hs] at hfields
        cases hit : dq.items with
        | none =>
          rw [update_quote] at h
          simp only [hf, ha, hit, Except.ok.injEq] at h
          subst h
          exact hfields
        | some l =>
          rcases hpi : processItems qid l with ⟨items2, sub2⟩
          rw [update_quote] at h
          simp only [hf, ha, hit, hpi, Except.ok.injEq] at h
          subst h
          exact hfields
  · intro hs j1 h
    have hrest : ∀ j0, (update_job.updateRest db j0 dj).1 = .ok j1 →
        j1.status = s := by
      intro j0 hr
      cases hjs : jobSchedFields (jobStatusField (jobBasicFields j0 dj) dj) dj with
      | error e =>
        rw [update_job.updateRest] at hr; simp only [hjs] at hr
        exact Except.noConfusion hr
      | ok j2 =>
        rw [update_job.updateRest] at hr
        simp only [hjs, Except.ok.injEq] at hr
        subst hr
        rw [jobSchedFields_status _ _ _ hjs, jobStatusField_status _ _ _ hs]
    cases hf : findJob db uid jid with
    | none => rw [update_job] at h; simp only [hf] at h; exact Except.noConfusion h
    | some j =>
      cases ht : dj.title with
      | none =>
        rw [update_job] at h
        simp only [hf, ht] at h
        exact hrest j h
      | some t =>
        by_cases hT : pyStrip t = ""
        · rw [update_job] at h; simp only [hf, ht, hT, ite_true, if_pos] at h
          exact Except.noConfusion h
        · rw [update_job] at h
          simp only [hf, ht, hT, ite_false, if_neg, if_false] at h
          exact hrest { j with title := pyStrip t } h
  · intro hs i1 h
    cases hf : findInvoice db uid iid with
    | none => rw [update_invoice] at h; simp only [hf] at h; exact Except.noConfusion h
    | some i =>
      cases ha : applyInvoiceFields i di now with
      | error e =>
        rw [update_invoice] at h; simp only [hf, ha] at h
        exact Except.noConfusion h
      | ok i2 =>
        rw [update_invoice] at h
        simp only [hf, ha, Except.ok.injEq] at h
        subst h
        rw [applyInvoiceFields] at ha
        cases hdd : di.due_date with
        | invalid => simp only [hdd] at ha; exact Except.noConfusion ha
        | absent =>
          simp only [hdd, Except.ok.injEq] at ha
          subst ha
          exact (recomputeInvoiceTotals_keeps _).1.trans
            (invoiceFieldsB_status_some _ di now s hs).1
        | null =>
          simp only [hdd, Except.ok.injEq] at ha
          subst ha
          exact (recomputeInvoiceTotals_keeps _).1.trans
            (invoiceFieldsB_status_some _ di now s hs).1
        | set t =>
          simp only [hdd, Except.ok.injEq] at ha
          subst ha
          exact (recomputeInvoiceTotals_keeps _).1.trans
            (invoiceFieldsB_status_some _ di now s hs).1

def quoteC1w : Quote :=
  { id := 1, user_id := 1, customer_id := 1, quote_number := "QT-1",
    title := "T", status := "draft" }

def dbC1w : DB := { quotes := [quoteC1w] }

theorem generic_updates_set_status_verbatim_witness :
    (({ status := some "expired" } : QuoteUpdateData).status = some "expired") ∧
    ((update_quote dbC1w 1 1 { status := some "expired" }).1 =
      .ok { quoteC1w with status := "expired" }) ∧
    ({ quoteC1w with status := "expired" } : Quote).status = "expired" :=
  ⟨rfl, by with_unfolding_all rfl,
   (generic_updates_set_status_verbatim dbC1w 1 1 1 1 0
     { status := some "expired" } {} {} "expired").1 rfl
     { quoteC1w with status := "expired" } (by with_unfolding_all rfl)⟩

/-! ### C2 -/

def invPaidC2 : Invoice :=
  { id := 1, user_id := 1, customer_id := 1, invoice_number := "INV-1",
    status := "paid", paid_date := some 100 }

def dbPaidC2 : DB := { invoices := [invPaidC2] }

/-- C2 counterexample: an invoice whose `paid_date` was set to 100 is
marked paid again at time 200, and `paid_date` is overwritten to 200 — the
mark-paid action does not preserve an existing `paid_date`. -/
theorem mark_paid_overwrites_paid_date :
    (mark_invoice_paid dbPaidC2 1 1 200).1.toOption.map Invoice.paid_date
      = some (some 200) ∧
    some (200 : Nat) ≠ some (100 : Nat) := by
  constructor
  · with_unfolding_all rfl
  · decide

/-- C2 amended: the mark-paid action sets the status to `paid` from any
prior state and always stamps `paid_date` with the current timestamp,
overwriting any previously stored value; only the update path
(`status = 'paid'` inside a generic update) preserves an existing
`paid_date` and stamps it only when unset. -/
theorem mark_paid_always_stamps (db : DB) (uid iid now : Nat) (i : Invoice)
    (d : InvoiceUpdateData) (hi : findInvoice db uid iid = some i) :
    (mark_invoice_paid db uid iid now =
      (.ok { i with status := "paid", paid_date := some now },
       putInvoice db { i with status := "paid", paid_date := some now })) ∧
    (d.status = some "paid" → ∀ i1,
      (update_invoice db uid iid d now).1 = .ok i1 →
      i1.status = "paid" ∧
      i1.paid_date = (if i.paid_date = none then some now else i.paid_date)) := by
  constructor
  · rw [mark_invoice_paid, hi]
  · intro hs i1 h
    cases ha : applyInvoiceFields i d now with
    | error e =>
      rw [update_invoice] at h; simp only [hi, ha] at h
      exact Except.noConfusion h
    | ok i2 =>
      rw [update_invoice] at h
      simp only [hi, ha, Except.ok.injEq] at h
      subst h
      rw [applyInvoiceFields] at ha
      have hkeep := invoiceFieldsA_keeps i d
      cases hdd : d.due_date <;> rw [hdd] at ha
      case invalid => exact Except.noConfusion ha
      all_goals
        simp only [Except.ok.injEq] at ha
        subst ha
        refine ⟨(recomputeInvoiceTotals_keeps _).1.trans
          (invoiceFieldsB_status_some _ d now _ hs).1, ?_⟩
        rw [(recomputeInvoiceTotals_keeps _).2.1,
            (invoiceFieldsB_status_some _ d now _ hs).2, hkeep.2]
        simp

def invDraftC2 : Invoice :=
  { id := 1, user_id := 1, customer_id := 1, invoice_number := "INV-2",
    status := "sent", paid_date := some 7 }

def dbDraftC2 : DB := { invoices := [invDraftC2] }

theorem mark_paid_always_stamps_witness :
    findInvoice dbDraftC2 1 1 = some invDraftC2 ∧
    mark_invoice_paid dbDraftC2 1 1 42 =
      (.ok { invDraftC2 with status := "paid", paid_date := some 42 },
       putInvoice dbDraftC2 { invDraftC2 with status := "paid", paid_date := some 42 }) :=
  ⟨by with_unfolding_all rfl,
   (mark_paid_always_stamps dbDraftC2 1 1 42 invDraftC2 {}
     (by with_unfolding_all rfl)).1⟩

/-! ### C3 -/

def quoteC3 : Quote :=
  { id := 1, user_id := 1, customer_id := 1, quote_number := "QT-3",
    title := "T", subtotal := 100, tax_rate := 10, tax_amount := 10,
    total := 110 }

def dbQuoteC3 : DB := { quotes := [quoteC3] }

/-- C3 counterexample: updating only `tax_rate` (no `items` key) succeeds
but leaves `subtotal`, `tax_amount` and `total` untouched: with the stored
subtotal 100 and the new rate 50, the stored `tax_amount` stays 10 instead
of the recomputed 50. -/
theorem tax_rate_update_leaves_totals_stale :
    (update_quote dbQuoteC3 1 1 { tax_rate := some 50 }).1.toOption.map
        (fun q => (q.tax_rate, q.subtotal, q.tax_amount, q.total))
      = some (50, 100, 10, 110) ∧
    (10 : ℚ) ≠ 100 * (50 / 100) := by
  constructor
  · with_unfolding_all rfl
  · with_unfolding_all decide

/-- C3 amended: `update_quote` recomputes the stored totals only when the
request contains an `items` key; an update that changes `tax_rate` without
supplying items leaves `subtotal`, `tax_amount` and `total` exactly as
they were (while `tax_rate` itself does change), and only when items are
supplied are the totals recomputed from the surviving items and the
effective tax rate. -/
theorem update_quote_totals_only_with_items (db : DB) (uid qid : Nat)
    (d : QuoteUpdateData) (q : Quote) (r : ℚ)
    (hq : findQuote db uid qid = some q) :
    (d.items = none → ∀ q1, (update_quote db uid qid d).1 = .ok q1 →
      q1.subtotal = q.subtotal ∧ q1.tax_amount = q.tax_amount ∧
      q1.total = q.total ∧ (d.tax_rate = some r → q1.tax_rate = r)) ∧
    (∀ l, d.items = some l → ∀ q1, (update_quote db uid qid d).1 = .ok q1 →
      q1.subtotal = (processItems qid l).2 ∧
      q1.tax_amount = q1.subtotal * (q1.tax_rate / 100) ∧
      q1.total = q1.subtotal + q1.tax_amount) := by
  constructor
  · intro hit q1 h
    cases ha : applyQuoteFields q d with
    | error e =>
      rw [update_quote] at h; simp only [hq, ha] at h
      exact Except.noConfusion h
    | ok qf =>
      rw [update_quote] at h
      simp only [hq, ha, hit, Except.ok.injEq] at h
      subst h
      have hfields := applyQuoteFields_ok_fields q d qf ha
      refine ⟨hfields.1, hfields.2.1, hfields.2.2.1, fun hr => ?_⟩
      rw [hfields.2.2.2.2, hr]
  · intro l hit q1 h
    cases ha : applyQuoteFields q d with
    | error e =>
      rw [update_quote] at h; simp only [hq, ha] at h
      exact Except.noConfusion h
    | ok qf =>
      rcases hpi : processItems qid l with ⟨items2, sub2⟩
      rw [update_quote] at h
      simp only [hq, ha, hit, hpi, Except.ok.injEq] at h
      subst h
      exact ⟨rfl, rfl, rfl⟩

theorem update_quote_totals_only_with_items_witness :
    findQuote dbQuoteC3 1 1 = some quoteC3 ∧
    ({ tax_rate := some 50 } : QuoteUpdateData).items = none ∧
    ((update_quote dbQuoteC3 1 1 { tax_rate := some 50 }).1 =
      .ok { quoteC3 with tax_rate := 50 }) ∧
    (({ quoteC3 with tax_rate := 50 } : Quote).subtotal = quoteC3.subtotal ∧
     ({ quoteC3 with tax_rate := 50 } : Quote).tax_amount = quoteC3.tax_amount ∧
     ({ quoteC3 with tax_rate := 50 } : Quote).total = quoteC3.total ∧
     (({ tax_rate := some 50 } : QuoteUpdateData).tax_rate = some 50 →
       ({ quoteC3 with tax_rate := 50 } : Quote).tax_rate = 50)) :=
  ⟨by with_unfolding_all rfl, rfl, by with_unfolding_all rfl,
   (update_quote_totals_only_with_items dbQuoteC3 1 1 { tax_rate := some 50 }
     quoteC3 50 (by with_unfolding_all rfl)).1 rfl
     { quoteC3 with tax_rate := 50 } (by with_unfolding_all rfl)⟩

/-! ### C6 -/

/-- C6: for quotes and invoices owned by the caller, the "send" action
moves a `draft` document to `sent`, and re-invoking "send" on an
already-`sent` document succeeds without error and without any change to
the document or the store. -/
theorem send_draft_to_sent_idempotent (db : DB) (uid qid iid : Nat)
    (q : Quote) (i : Invoice)
    (hq : findQuote db uid qid = some q)
    (hi : findInvoice db uid iid = some i) :
    (q.status = "draft" →
      send_quote db uid qid =
        (.ok { q with status := "sent" }, putQuote db { q with status := "sent" })) ∧
    (q.status = "sent" → send_quote db uid qid = (.ok q, db)) ∧
    (i.status = "draft" →
      send_invoice db uid iid =
        (.ok { i with status := "sent" }, putInvoice db { i with status := "sent" })) ∧
    (i.status = "sent" → send_invoice db uid iid = (.ok i, db)) := by
  refine ⟨fun h => ?_, fun h => ?_, fun h => ?_, fun h => ?_⟩ <;>
    simp [send_quote, send_invoice, hq, hi, h]

def quoteSentC6 : Quote :=
  { id := 1, user_id := 1, customer_id := 1, quote_number := "QT-6",
    title := "T", status := "sent" }

def invDraftC6 : Invoice :=
  { id := 1, user_id := 1, customer_id := 1, invoice_number := "INV-6",
    status := "draft" }

def dbSendC6 : DB := { quotes := [quoteSentC6], invoices := [invDraftC6] }

theorem send_draft_to_sent_idempotent_witness :
    findQuote dbSendC6 1 1 = some quoteSentC6 ∧
    findInvoice dbSendC6 1 1 = some invDraftC6 ∧
    (quoteSentC6.status = "sent" → send_quote dbSendC6 1 1 = (.ok quoteSentC6, dbSendC6)) ∧
    (invDraftC6.status = "draft" →
      send_invoice dbSendC6 1 1 =
        (.ok { invDraftC6 with status := "sent" },
         putInvoice dbSendC6 { invDraftC6 with status := "sent" })) :=
  ⟨by with_unfolding_all rfl, by with_unfolding_all rfl,
   (send_draft_to_sent_idempotent dbSendC6 1 1 1 quoteSentC6 invDraftC6
     (by with_unfolding_all rfl) (by with_unfolding_all rfl)).2.1,
   (send_draft_to_sent_idempotent dbSendC6 1 1 1 quoteSentC6 invDraftC6
     (by with_unfolding_all rfl) (by with_unfolding_all rfl)).2.2.1⟩

/-! ### C4 -/

/-- The persisted item built from one surviving request entry. -/
def mkQuoteItem (qid : Nat) (it : ItemData) : QuoteItem :=
  { quote_id := qid, description := pyStrip it.description,
    quantity := it.quantity, unit_price := it.unit_price,
    total_price := it.quantity * it.unit_price }

theorem processItems_spec (qid : Nat) (l : List ItemData) :
    (processItems qid l).1 =
      (l.filter (fun it => pyStrip it.description ≠ "")).map (mkQuoteItem qid) ∧
    (processItems qid l).2 =
      ((processItems qid l).1.map (fun it => it.quantity * it.unit_price)).sum := by
  induction l with
  | nil => exact ⟨rfl, rfl⟩
  | cons it rest ih =>
    rcases hpi : processItems qid rest with ⟨ri, rs⟩
    rw [hpi] at ih
    dsimp only at ih
    obtain ⟨ih1, ih2⟩ := ih
    by_cases hd : pyStrip it.description = ""
    · have e1 : processItems qid (it :: rest) = (ri, rs) := by
        simp [processItems, hpi, hd]
      rw [e1]
      dsimp only
      constructor
      · rw [List.filter_cons]
        simp only [hd, ne_eq, not_true_eq_false, decide_eq_true_eq, if_false,
          ite_false, if_neg, not_false_eq_true]
        exact ih1
      · exact ih2
    · have e1 : processItems qid (it :: rest) =
          (mkQuoteItem qid it :: ri, it.quantity * it.unit_price + rs) := by
        simp [processItems, hpi, hd, mkQuoteItem]
      rw [e1]
      dsimp only
      constructor
      · rw [List.filter_cons]
        simp [hd, ih1]
      · rw [List.map_cons, List.sum_cons, ih2]
        rfl

/-- C4 amended: quote creation drops items whose stripped description is
empty, persists exactly the surviving items with
`total_price = quantity * unit_price`, and stores
`subtotal = Σ quantity * unit_price` over the survivors,
`tax_amount = subtotal * tax_rate / 100` computed exactly — with no
rounding step — and `total = subtotal + tax_amount`.  (`round(..., 2)`
agrees with this whenever the product has at most two decimal places, as
in the worked example.) -/
theorem create_quote_totals (db : DB) (uid : Nat) (d : QuoteCreateData)
    (newId : Nat) (qnum : String) (now : Nat) (q : Quote)
    (items : List QuoteItem)
    (h : (create_quote db uid d newId qnum now).1 = .ok (q, items)) :
    items = (d.items.filter (fun it => pyStrip it.description ≠ "")).map
      (mkQuoteItem newId) ∧
    (∀ it ∈ items, it.total_price = it.quantity * it.unit_price) ∧
    q.subtotal = (items.map (fun it => it.quantity * it.unit_price)).sum ∧
    q.tax_amount = q.subtotal * (d.tax_rate / 100) ∧
    q.total = q.subtotal + q.tax_amount := by
  cases hcid : d.customer_id with
  | none =>
    rw [create_quote] at h; simp only [hcid] at h
    exact Except.noConfusion h
  | some cid =>
    by_cases hT : pyStrip d.title = ""
    · rw [create_quote] at h; simp only [hcid, hT, ite_true, if_pos] at h
      exact Except.noConfusion h
    · cases hfc : findCustomer db uid cid with
      | none =>
        rw [create_quote] at h
        simp only [hcid, hT, ite_false, if_neg, hfc, Bool.false_eq_true,
          if_false] at h
        exact Except.noConfusion h
      | some c =>
        rcases hpi : processItems newId d.items with ⟨ni, sub⟩
        have hspec := processItems_spec newId d.items
        rw [hpi] at hspec
        dsimp only at hspec
        obtain ⟨hs1, hs2⟩ := hspec
        rw [create_quote] at h
        simp only [hcid, hT, ite_false, if_neg, hfc, hpi, Except.ok.injEq,
          Prod.mk.injEq, Bool.false_eq_true, if_false, not_false_eq_true] at h
        obtain ⟨hq, hitems⟩ := h
        subst hq
        subst hitems
        refine ⟨hs1, ?_, hs2, rfl, rfl⟩
        intro it hit
        rw [hs1] at hit
        rcases List.mem_map.mp hit with ⟨src, _, hsrc⟩
        rw [← hsrc]
        rfl

def custC4 : Customer := { id := 1, user_id := 1, name := "Acme" }

def dbC4 : DB := { customers := [custC4] }

def dC4bad : QuoteCreateData :=
  { customer_id := some 1, title := "X", tax_rate := 3,
    items := [{ description := "X", quantity := 1, unit_price := 1/100 }] }

/-- C4 counterexample: with one line of 1 × 0.01 and a 3 % tax rate the
code stores `tax_amount = 0.0003` exactly, while the claim's
`round(subtotal * tax_rate / 100, 2)` is `0.00` — the code applies no
rounding. -/
theorem create_quote_tax_not_rounded :
    ((create_quote dbC4 1 dC4bad 10 "QT-4" 0).1.toOption.map
      (fun p => p.1.tax_amount)) = some (3/10000) ∧
    pyRound2 ((1/100) * ((3 : ℚ) / 100)) = 0 ∧
    (3/10000 : ℚ) ≠ 0 := by
  refine ⟨by with_unfolding_all rfl, by with_unfolding_all rfl,
    by with_unfolding_all decide⟩

def dC4ex : QuoteCreateData :=
  { customer_id := some 1, title := "Kitchen remodel", tax_rate := 10,
    items := [{ description := "Labor", quantity := 2, unit_price := 50 },
              { description := "Parts", quantity := 1, unit_price := 75 }] }

def qC4ex : Quote :=
  { id := 10, user_id := 1, customer_id := 1, quote_number := "QT-4",
    title := "Kitchen remodel", tax_rate := 10, subtotal := 175,
    tax_amount := 35/2, total := 385/2, valid_until := some 2592000 }

def itemsC4ex : List QuoteItem :=
  [{ quote_id := 10, description := "Labor", quantity := 2, unit_price := 50,
     total_price := 100 },
   { quote_id := 10, description := "Parts", quantity := 1, unit_price := 75,
     total_price := 75 }]

theorem create_quote_totals_witness :
    ((create_quote dbC4 1 dC4ex 10 "QT-4" 0).1 = .ok (qC4ex, itemsC4ex)) ∧
    (itemsC4ex = (dC4ex.items.filter (fun it => pyStrip it.description ≠ "")).map
        (mkQuoteItem 10) ∧
      (∀ it ∈ itemsC4ex, it.total_price = it.quantity * it.unit_price) ∧
      qC4ex.subtotal = (itemsC4ex.map (fun it => it.quantity * it.unit_price)).sum ∧
      qC4ex.tax_amount = qC4ex.subtotal * (dC4ex.tax_rate / 100) ∧
      qC4ex.total = qC4ex.subtotal + qC4ex.tax_amount) ∧
    (qC4ex.subtotal = 175 ∧ qC4ex.tax_amount = 35/2 ∧ qC4ex.total = 385/2) :=
  ⟨by with_unfolding_all rfl,
   create_quote_totals dbC4 1 dC4ex 10 "QT-4" 0 qC4ex itemsC4ex
     (by with_unfolding_all rfl),
   by with_unfolding_all decide⟩

/-! ### C5 -/

theorem findCustomer_eq_none (db : DB) (uid cid : Nat)
    (h : ∀ c ∈ db.customers, c.id = cid → c.user_id ≠ uid) :
    findCustomer db uid cid = none := by
  rw [findCustomer]
  apply List.find?_eq_none.mpr
  intro c hmem hp
  simp only [Bool.and_eq_true, decide_eq_true_eq] at hp
  exact h c hmem hp.1 hp.2

theorem findQuote_eq_none (db : DB) (uid qid : Nat)
    (h : ∀ q ∈ db.quotes, q.id = qid → q.user_id ≠ uid) :
    findQuote db uid qid = none := by
  rw [findQuote]
  apply List.find?_eq_none.mpr
  intro q hmem hp
  simp only [Bool.and_eq_true, decide_eq_true_eq] at hp
  exact h q hmem hp.1 hp.2

theorem findJob_eq_none (db : DB) (uid jid : Nat)
    (h : ∀ j ∈ db.jobs, j.id = jid → j.user_id ≠ uid) :
    findJob db uid jid = none := by
  rw [findJob]
  apply List.find?_eq_none.mpr
  intro j hmem hp
  simp only [Bool.and_eq_true, decide_eq_true_eq] at hp
  exact h j hmem hp.1 hp.2

theorem findInvoice_eq_none (db : DB) (uid iid : Nat)
    (h : ∀ i ∈ db.invoices, i.id = iid → i.user_id ≠ uid) :
    findInvoice db uid iid = none := by
  rw [findInvoice]
  apply List.find?_eq_none.mpr
  intro i hmem hp
  simp only [Bool.and_eq_true, decide_eq_true_eq] at hp
  exact h i hmem hp.1 hp.2

/-- C5: when no row of the target id is owned by the caller — which covers
both a non-existent id and an id owned by a different account, making the
two cases return literally the same value — every read, update, delete and
status-transition operation on all four entity types returns the 404
not-found outcome and leaves the store unchanged. -/
theorem cross_owner_access_is_not_found (db : DB)
    (uid cid qid jid iid now : Nat) (dc : CustomerUpdateData)
    (dq : QuoteUpdateData) (dj : JobUpdateData) (di : InvoiceUpdateData)
    (hc : ∀ c ∈ db.customers, c.id = cid → c.user_id ≠ uid)
    (hq : ∀ q ∈ db.quotes, q.id = qid → q.user_id ≠ uid)
    (hj : ∀ j ∈ db.jobs, j.id = jid → j.user_id ≠ uid)
    (hi : ∀ i ∈ db.invoices, i.id = iid → i.user_id ≠ uid) :
    get_customer db uid cid = (.error (404, "Customer not found"), db) ∧
    update_customer db uid cid dc = (.error (404, "Customer not found"), db) ∧
    delete_customer db uid cid = (.error (404, "Customer not found"), db) ∧
    get_quote db uid qid = (.error (404, "Quote not found"), db) ∧
    update_quote db uid qid dq = (.error (404, "Quote not found"), db) ∧
    delete_quote db uid qid = (.error (404, "Quote not found"), db) ∧
    send_quote db uid qid = (.error (404, "Quote not found"), db) ∧
    accept_quote db uid qid = (.error (404, "Quote not found"), db) ∧
    reject_quote db uid qid = (.error (404, "Quote not found"), db) ∧
    get_job db uid jid = (.error (404, "Job not found"), db) ∧
    update_job db uid jid dj = (.error (404, "Job not found"), db) ∧
    delete_job db uid jid = (.error (404, "Job not found"), db) ∧
    start_job db uid jid = (.error (404, "Job not found"), db) ∧
    complete_job db uid jid = (.error (404, "Job not found"), db) ∧
    cancel_job db uid jid = (.error (404, "Job not found"), db) ∧
    get_invoice db uid iid = (.error (404, "Invoice not found"), db) ∧
    update_invoice db uid iid di now = (.error (404, "Invoice not found"), db) ∧
    delete_invoice db uid iid = (.error (404, "Invoice not found"), db) ∧
    send_invoice db uid iid = (.error (404, "Invoice not found"), db) ∧
    mark_invoice_paid db uid iid now = (.error (404, "Invoice not found"), db) := by
  have hfc := findCustomer_eq_none db uid cid hc
  have hfq := findQuote_eq_none db uid qid hq
  have hfj := findJob_eq_none db uid jid hj
  have hfi := findInvoice_eq_none db uid iid hi
  refine ⟨?_, ?_, ?_, ?_, ?_, ?_, ?_, ?_, ?_, ?_, ?_, ?_, ?_, ?_, ?_, ?_,
    ?_, ?_, ?_, ?_⟩
  · rw [get_customer, hfc]
  · rw [update_customer, hfc]
  · rw [delete_customer, hfc]
  · rw [get_quote, hfq]
  · rw [update_quote, hfq]
  · rw [delete_quote, hfq]
  · rw [send_quote, hfq]
  · rw [accept_quote, hfq]
  · rw [reject_quote, hfq]
  · rw [get_job, hfj]
  · rw [update_job, hfj]
  · rw [delete_job, hfj]
  · rw [start_job, hfj]
  · rw [complete_job, hfj]
  · rw [cancel_job, hfj]
  · rw [get_invoice, hfi]
  · rw [update_invoice, hfi]
  · rw [delete_invoice, hfi]
  · rw [send_invoice, hfi]
  · rw [mark_invoice_paid, hfi]

def dbOtherOwner : DB :=
  { customers := [{ id := 1, user_id := 2, name := "B customer" }],
    quotes := [{ id := 1, user_id := 2, customer_id := 1,
                 quote_number := "QT-B", title := "B quote" }],
    jobs := [{ id := 1, user_id := 2, customer_id := 1,
               job_number := "JB-B", title := "B job" }],
    invoices := [{ id := 1, user_id := 2, customer_id := 1,
                   invoice_number := "INV-B" }] }

theorem cross_owner_access_is_not_found_witness :
    (∀ c ∈ dbOtherOwner.customers, c.id = 1 → c.user_id ≠ 1) ∧
    (∀ q ∈ dbOtherOwner.quotes, q.id = 1 → q.user_id ≠ 1) ∧
    (∀ j ∈ dbOtherOwner.jobs, j.id = 1 → j.user_id ≠ 1) ∧
    (∀ i ∈ dbOtherOwner.invoices, i.id = 1 → i.user_id ≠ 1) ∧
    get_quote dbOtherOwner 1 1 = (.error (404, "Quote not found"), dbOtherOwner) ∧
    delete_customer dbOtherOwner 1 1 =
      (.error (404, "Customer not found"), dbOtherOwner) := by
  have h := cross_owner_access_is_not_found dbOtherOwner 1 1 1 1 1 0 {} {} {} {}
    (by decide) (by decide) (by decide) (by decide)
  exact ⟨by decide, by decide, by decide, by decide, h.2.2.2.1, h.2.2.1⟩

/-! ### C9 -/

theorem mem_insertByDesc {α : Type} (key : α → Nat) (x a : α) (l : List α) :
    a ∈ insertByDesc key x l → a = x ∨ a ∈ l := by
  induction l with
  | nil =>
    intro h
    simp only [insertByDesc, List.mem_singleton] at h
    exact Or.inl h
  | cons y ys ih =>
    intro h
    rw [insertByDesc] at h
    by_cases hk : key y < key x
    · rw [if_pos hk] at h
      rcases List.mem_cons.mp h with h1 | h2
      · exact Or.inl h1
      · exact Or.inr h2
    · rw [if_neg hk] at h
      rcases List.mem_cons.mp h with h1 | h2
      · exact Or.inr (List.mem_cons.mpr (Or.inl h1))
      · rcases ih h2 with h3 | h4
        · exact Or.inl h3
        · exact Or.inr (List.mem_cons.mpr (Or.inr h4))

theorem pairwise_insertByDesc {α : Type} (key : α → Nat) (x : α) (l : List α)
    (hl : l.Pairwise (fun a b => key b ≤ key a)) :
    (insertByDesc key x l).Pairwise (fun a b => key b ≤ key a) := by
  induction l with
  | nil => simp [insertByDesc]
  | cons y ys ih =>
    rw [insertByDesc]
    rcases List.pairwise_cons.mp hl with ⟨hy, hys⟩
    by_cases hk : key y < key x
    · rw [if_pos hk]
      refine List.pairwise_cons.mpr ⟨?_, hl⟩
      intro b hb
      rcases List.mem_cons.mp hb with hb1 | hb2
      · subst hb1; exact Nat.le_of_lt hk
      · exact Nat.le_trans (hy b hb2) (Nat.le_of_lt hk)
    · rw [if_neg hk]
      refine List.pairwise_cons.mpr ⟨?_, ih hys⟩
      intro b hb
      rcases mem_insertByDesc key x b ys hb with hb1 | hb2
      · subst hb1; exact Nat.le_of_not_lt hk
      · exact hy b hb2

theorem pairwise_sortByDesc {α : Type} (key : α → Nat) (l : List α) :
    (sortByDesc key l).Pairwise (fun a b => key b ≤ key a) := by
  rw [sortByDesc]
  induction l with
  | nil => simp
  | cons x xs ih => exact pairwise_insertByDesc key x _ ih

def custC9 : Customer := { id := 1, user_id := 1, name := "A" }

def dbC9 : DB :=
  { customers := [custC9],
    quotes := [{ id := 1, user_id := 1, customer_id := 1, quote_number := "Q1",
                 title := "a", created_at := 1 },
               { id := 2, user_id := 1, customer_id := 1, quote_number := "Q2",
                 title := "b", created_at := 2 },
               { id := 3, user_id := 1, customer_id := 1, quote_number := "Q3",
                 title := "c", created_at := 3 }] }

/-- C9 counterexample: with three quotes and limit 6 the code returns all
three (it takes `limit // 2 = 3` most recent of each type), while the
claimed `limit // 3 = 2` per type would return only two — the feed does
not take `N/3` of each type. -/
theorem recent_activity_not_a_third :
    (get_recent_activity dbC9 1 6).length = 3 ∧
    (recent_activity_spec dbC9 1 6).length = 2 ∧
    get_recent_activity dbC9 1 6 ≠ recent_activity_spec dbC9 1 6 := by
  refine ⟨by with_unfolding_all rfl, by with_unfolding_all rfl,
    by with_unfolding_all decide⟩

/-- Modelled from the spec's feed description with the per-type quota
corrected from `N/3` to `N/2`: the `N/2` most recent quotes, jobs and
invoices each, merged into one type-tagged list, sorted descending by
creation timestamp, truncated to `N`. -/
def recent_activity_half_spec (db : DB) (uid limit : Nat) : List Activity :=
  let recentQuotes :=
    (sortByDesc Quote.created_at (db.quotes.filter (fun q => q.user_id = uid))).take (limit / 2)
  let recentJobs :=
    (sortByDesc Job.created_at (db.jobs.filter (fun j => j.user_id = uid))).take (limit / 2)
  let recentInvoices :=
    (sortByDesc Invoice.created_at (db.invoices.filter (fun i => i.user_id = uid))).take (limit / 2)
  (sortByDesc Activity.date
    (recentQuotes.map (quoteActivity db)
      ++ recentJobs.map (jobActivity db)
      ++ recentInvoices.map (invoiceActivity db))).take limit

/-- C9 amended: the feed takes the `N/2` (not `N/3`) most recent quotes,
jobs and invoices of the caller, merges them tagged by type, sorts the
merged list descending by creation timestamp, and truncates it to at most
`N` entries. -/
theorem recent_activity_takes_half (db : DB) (uid limit : Nat) :
    get_recent_activity db uid limit = recent_activity_half_spec db uid limit ∧
    (get_recent_activity db uid limit).length ≤ limit ∧
    (get_recent_activity db uid limit).Pairwise (fun a b => b.date ≤ a.date) := by
  refine ⟨rfl, ?_, ?_⟩
  · rw [get_recent_activity]
    exact List.length_take_le limit _
  · rw [get_recent_activity]
    exact (pairwise_sortByDesc Activity.date _).sublist (List.take_sublist _ _)

/-! ### C8 -/

/-- C8 counterexample: for a query issued in March 2025 the month-mode
revenue chart does not cover the last 12 calendar months — February 2025
is skipped entirely (the `32*i`-day stepping always jumps past the month
immediately before the query month). -/
theorem revenue_chart_skips_previous_month :
    ((get_revenue_chart_month {} 1 2025 3).map Prod.fst ≠ last12Months 2025 3) ∧
    (2025, 2) ∉ (get_revenue_chart_month {} 1 2025 3).map Prod.fst ∧
    (2025, 2) ∈ last12Months 2025 3 := by
  refine ⟨by with_unfolding_all decide, by with_unfolding_all decide,
    by with_unfolding_all decide⟩

set_option maxHeartbeats 6000000 in
theorem rowCheck_range :
    ((List.range 8).all fun dy => (List.range 12).all fun dm =>
      rowCheck (2024 + dy) (1 + dm)) = true := by decide

theorem rowCheck_holds (y m : Nat) (hy1 : 2024 ≤ y) (hy2 : y ≤ 2031)
    (hm1 : 1 ≤ m) (hm2 : m ≤ 12) : rowCheck y m = true := by
  have hdy : y - 2024 < 8 := by omega
  have hdm : m - 1 < 12 := by omega
  have h1 := List.all_eq_true.mp rowCheck_range _ (List.mem_range.mpr hdy)
  have h2 := List.all_eq_true.mp h1 _ (List.mem_range.mpr hdm)
  have e1 : 2024 + (y - 2024) = y := by omega
  have e2 : 1 + (m - 1) = m := by omega
  rw [e1, e2] at h2
  exact h2

theorem rowCheck_bucket (y m : Nat) (h : rowCheck y m = true) (i : Nat)
    (hi : i < 12) :
    bucketMonth y m i = codeBucketMonth y m i ∧
    monthStartDn y m i =
      civilToDays (codeBucketMonth y m i).1 (codeBucketMonth y m i).2 1 ∧
    monthEndDn y m i =
      civilToDays (codeBucketMonth y m i).1 (codeBucketMonth y m i).2
        (daysInMonth (codeBucketMonth y m i).1 (codeBucketMonth y m i).2) := by
  rw [rowCheck] at h
  have h2 := List.all_eq_true.mp h i (List.mem_range.mpr hi)
  simp only [Bool.and_eq_true, beq_iff_eq] at h2
  exact ⟨h2.1.1, h2.1.2, h2.2⟩

/-- C8 amended: for any query date (verified for all months of the years
2024–2031, where the behaviour is uniform), the month-mode chart returns
12 buckets, oldest first, but they are not the 12 preceding calendar
months: bucket `i` (counting back from the query month) is the query
month itself for `i = 0` and the month `i + 1` months back for
`i = 1, …, 11` — the month immediately before the query month is always
skipped and the query month of the previous year appears instead.  Each
bucket sums the totals of the caller's paid invoices whose `paid_date`
(at day granularity) lies between the first and the last day of the
bucket's calendar month. -/
theorem revenue_chart_month_amended (db : DB) (uid y m : Nat)
    (hy1 : 2024 ≤ y) (hy2 : y ≤ 2031) (hm1 : 1 ≤ m) (hm2 : m ≤ 12) :
    get_revenue_chart_month db uid y m =
      ((List.range 12).map (fun i =>
        (codeBucketMonth y m i,
         calendarMonthRevenue db uid (codeBucketMonth y m i)))).reverse ∧
    (get_revenue_chart_month db uid y m).length = 12 := by
  have hrow := rowCheck_holds y m hy1 hy2 hm1 hm2
  constructor
  · rw [get_revenue_chart_month]
    refine congrArg List.reverse (List.map_congr_left ?_)
    intro i hi
    have hr := rowCheck_bucket y m hrow i (List.mem_range.mp hi)
    dsimp only
    rw [hr.1, hr.2.1, hr.2.2, calendarMonthRevenue]
  · simp [get_revenue_chart_month]

theorem revenue_chart_month_amended_witness :
    ((2024:Nat) ≤ 2025 ∧ (2025:Nat) ≤ 2031 ∧ (1:Nat) ≤ 6 ∧ (6:Nat) ≤ 12) ∧
    (get_revenue_chart_month {} 1 2025 6).length = 12 :=
  ⟨⟨by decide, by decide, by decide, by decide⟩,
   (revenue_chart_month_amended {} 1 2025 6 (by decide) (by decide)
     (by decide) (by decide)).2⟩

end SP
